import Mathlib

/-!
Shallow embedding of the HYSPLIT input-deck generator (`mk_control.py`):
the EMITIMES generator `mk_emitimes`, the CONTROL generator `mk_control`,
and the meteorology-file selection helper
`generate_meteorology_files_for_period`, together with theorems settling
the claims about them.

Python integers are embedded as `Int`; Python float values are embedded as
exact rationals `ℚ` (every numeric literal appearing in the repository is a
short decimal, on which the rational and the IEEE double agree digit for
digit under the formatting used below).  Python `//` and `%` are floor
division and floor modulus, hence `Int.fdiv` and `Int.emod`.
-/

namespace Hysplit

/-- Left-pad a digit string with zeros up to width `w`
(the digits part of Python's `{n:0wd}` formatting). -/
def zeroPad (w : Nat) (s : String) : String :=
  if s.length < w then String.mk (List.replicate (w - s.length) '0') ++ s else s

/-- Python `f"{n:0wd}"`: decimal rendering of an integer, zero-padded to
total width `w`, the zeros inserted after the sign. -/
def padInt (w : Nat) (n : Int) : String :=
  if n < 0 then "-" ++ zeroPad (w - 1) (toString n.natAbs)
  else zeroPad w (toString n.natAbs)

/-- Python `str.join`: interleave a separator between the elements,
with no trailing separator. -/
def pyJoin (sep : String) : List String → String
  | [] => ""
  | [x] => x
  | x :: y :: xs => x ++ sep ++ pyJoin sep (y :: xs)

/-- Python `f"{q:.ndf}"` on the exact rational value `q = num/den`:
round to `nd` decimal places (ties away from floor, i.e. half-up on the
exact value; no tie is exercised by any input considered here) and render
with exactly `nd` fractional digits, no decimal point when `nd = 0`. -/
def fmtFixed (nd : Nat) (q : ℚ) : String :=
  let n : Int := (2 * q.num * (10 : Int) ^ nd + (q.den : Int)).fdiv (2 * (q.den : Int))
  if nd = 0 then toString n
  else
    let sign := if n < 0 then "-" else ""
    let a := n.natAbs
    sign ++ toString (a / 10 ^ nd) ++ "." ++ zeroPad nd (toString (a % 10 ^ nd))

/-- Smallest exponent `k` with `den ∣ 10 ^ k`, when one exists
(`k ≤ den` always suffices for divisors of a power of ten). -/
def decExp (den : Nat) : Option Nat :=
  (List.range (den + 1)).find? (fun k => decide (den ∣ 10 ^ k))

/-- Python `str(x)` on a float value embedded as the exact rational `x`:
the shortest decimal expansion, with a trailing `.0` on integral values.
On the short decimal literals used by this repository this coincides with
CPython's float repr. -/
def pyStr (q : ℚ) : String :=
  match decExp q.den with
  | some k =>
    let mantissa : Int := q.num * (((10 : Nat) ^ k) / q.den : Nat)
    let sign := if mantissa < 0 then "-" else ""
    let a := mantissa.natAbs
    if k = 0 then sign ++ toString a ++ ".0"
    else sign ++ toString (a / 10 ^ k) ++ "." ++ zeroPad k (toString (a % 10 ^ k))
  | none => toString q

/-- One emission release point: the dict
`{lat, lon, height, mass, gas, name?, area?, heat?}` of the source.
`lat`, `lon`, `height`, `mass`, `gas` are the required keys; `name` is
display-only, `area` and `heat` are read with `.get(key, 0)`. -/
structure EmissionPoint where
  lat : ℚ
  lon : ℚ
  height : ℚ
  mass : ℚ
  gas : String
  name : Option String
  area : Option ℚ
  heat : Option ℚ
deriving Repr, DecidableEq

/-- The two literal EMITIMES header lines. -/
def emitimesHeaders : List String :=
  ["YYYY MM DD HH DURATION(hhhh) RECORDS",
   "YYYY MM DD HH MM DURATION(hhmm) LAT LON HGT(m) RATE(/h) AREA(m2) HEAT(w)"]

/-- EMITIMES summary line:
`f"{year} {month:02d} {day:02d} {hour:04d} {duration_hours:04d} {records:04d}"`. -/
def emitimesSummary (year month day hour duration_hours : Int) (records : Nat) : String :=
  toString year ++ " " ++ padInt 2 month ++ " " ++ padInt 2 day ++ " " ++
    padInt 4 hour ++ " " ++ padInt 4 duration_hours ++ " " ++ padInt 4 (records : Int)

/-- EMITIMES record line for one point:
`f"{year} {month:02d} {day:02d} {hour:02d} {minute:02d} {duration_hours:02d}{duration_minutes:02d} {lat} {lon} {height} {mass} {area} {heat}"`. -/
def emitimesRecord (year month day hour minute duration_hours duration_minutes : Int)
    (p : EmissionPoint) : String :=
  toString year ++ " " ++ padInt 2 month ++ " " ++ padInt 2 day ++ " " ++
    padInt 2 hour ++ " " ++ padInt 2 minute ++ " " ++
    padInt 2 duration_hours ++ padInt 2 duration_minutes ++ " " ++
    pyStr p.lat ++ " " ++ pyStr p.lon ++ " " ++ pyStr p.height ++ " " ++
    pyStr p.mass ++ " " ++ pyStr (p.area.getD 0) ++ " " ++ pyStr (p.heat.getD 0)

/-- The list `lines` built by `mk_emitimes`: two headers, the summary line,
then one record line per point in input order.  The source performs no
range validation whatsoever on the date and time fields. -/
def emitimesLines (points : List EmissionPoint)
    (year month day hour minute duration_hours duration_minutes : Int) : List String :=
  emitimesHeaders ++
    [emitimesSummary year month day hour duration_hours points.length] ++
    points.map (emitimesRecord year month day hour minute duration_hours duration_minutes)

/-- `mk_emitimes` of the source: `'\n'.join(lines)`. -/
def mk_emitimes (points : List EmissionPoint)
    (year month day hour minute duration_hours duration_minutes : Int) : String :=
  pyJoin "\x0a" (emitimesLines points year month day hour minute duration_hours duration_minutes)

/-- The error channel of `mk_control`: the `raise ValueError(...)` calls,
each identifying the offending field and its value
(the spec calls this error `InvalidParameter`). -/
inductive GenError where
  | invalidParameter (field : String) (value : Int)
deriving Repr, DecidableEq

/-- `month_abbr` of the source. -/
def monthAbbr : List String :=
  ["jan", "feb", "mar", "apr", "may", "jun", "jul", "aug", "sep", "oct", "nov", "dec"]

/-- `week_num = min((day - 1) // 7 + 1, 5)` of `mk_control`'s auto branch. -/
def controlWeekNum (day : Int) : Int :=
  min ((day - 1).fdiv 7 + 1) 5

/-- `meteorology_file = f"gdas1.{month_abbr[month-1]}{year % 100:02d}.w{week_num}"`. -/
def controlMeteoFile (year month day : Int) : String :=
  "gdas1." ++ monthAbbr.getD (month - 1).toNat "" ++ padInt 2 (year.emod 100) ++
    ".w" ++ toString (controlWeekNum day)

/-- A CONTROL coordinate line:
`f"{point['lat']:.3f} {point['lon']:.3f}   {point['height']:.0f}"`. -/
def coordLine (p : EmissionPoint) : String :=
  fmtFixed 3 p.lat ++ " " ++ fmtFixed 3 p.lon ++ "   " ++ fmtFixed 0 p.height

/-- `start_time = f"{year % 100:02d} {month:02d} {day:02d} {start_hour:02d}"`. -/
def startTimeStr (year month day start_hour : Int) : String :=
  padInt 2 (year.emod 100) ++ " " ++ padInt 2 month ++ " " ++ padInt 2 day ++ " " ++
    padInt 2 start_hour

/-- `release_time = f"{year % 100:02d} {month:02d} {day:02d} {start_hour:02d} 00"`. -/
def releaseTimeStr (year month day start_hour : Int) : String :=
  padInt 2 (year.emod 100) ++ " " ++ padInt 2 month ++ " " ++ padInt 2 day ++ " " ++
    padInt 2 start_hour ++ " 00"

/-- The meteorology block of CONTROL: `if meteorology_files:` takes the
caller-supplied list, count line first then a (directory, filename) line
pair per entry; a `None` or empty (falsy) list takes the auto-derivation
branch, which emits count `"1"`, the base directory and the derived
filename. -/
def meteoBlock (meteorology_dir : String)
    (meteorology_files : Option (List (String × String)))
    (year month day : Int) : List String :=
  match meteorology_files with
  | some (f :: fs) =>
      toString (f :: fs).length :: (f :: fs).flatMap (fun pr => [pr.1, pr.2])
  | _ => ["1", meteorology_dir, controlMeteoFile year month day]

/-- The fixed tail block appended by `lines.extend([...])` at the end of
`mk_control`: sixteen lines, constants except the caller-supplied output
directory and output filename. -/
def fixedTail (output_dir output_file : String) : List String :=
  ["0.0   0.0",
   "0.05 0.05",
   "30 30",
   output_dir,
   output_file,
   "1",
   "100",
   "00 00 00 00 00",
   "00 00 00 00 00",
   "00 01 00",
   "1",
   "0.0 0.0 0.0",
   "0.0 0.0 0.0 0.0 0.0",
   "0.0 0.0 0.0",
   "0.0",
   "0.0"]

/-- Everything `mk_control` appends to `lines` before the fixed tail
block, in source order: start time, point count, one coordinate line per
point, duration, vertical method, top height, meteorology block, then the
species block truncated to `points[:1]` (count, identifiers, masses), the
fixed release-distribution code `"3"`, release time and the release-point
count. -/
def controlHead (points : List EmissionPoint) (year month day : Int)
    (meteorology_dir : String) (meteorology_files : Option (List (String × String)))
    (start_hour duration_hours : Int) (top_height : ℚ)
    (vertical_method : Int) : List String :=
  [startTimeStr year month day start_hour,
   toString points.length] ++
  points.map coordLine ++
  [toString duration_hours,
   toString vertical_method,
   fmtFixed 1 top_height] ++
  meteoBlock meteorology_dir meteorology_files year month day ++
  [toString (points.take 1).length] ++
  (points.take 1).map (fun p => p.gas) ++
  (points.take 1).map (fun p => pyStr p.mass) ++
  ["3",
   releaseTimeStr year month day start_hour,
   toString (points.take 1).length]

/-- The `lines` list built by `mk_control`, behind its three range checks:
the head block followed by the fixed tail block. -/
def mkControlLines (points : List EmissionPoint) (year month day : Int)
    (meteorology_dir : String) (meteorology_files : Option (List (String × String)))
    (start_hour duration_hours : Int) (top_height : ℚ)
    (output_dir output_file : String) (vertical_method : Int) :
    Except GenError (List String) :=
  if ¬(1 ≤ month ∧ month ≤ 12) then .error (.invalidParameter "month" month)
  else if ¬(1 ≤ day ∧ day ≤ 31) then .error (.invalidParameter "day" day)
  else if ¬(0 ≤ start_hour ∧ start_hour ≤ 23) then
    .error (.invalidParameter "start_hour" start_hour)
  else .ok (
    controlHead points year month day meteorology_dir meteorology_files
      start_hour duration_hours top_height vertical_method ++
    fixedTail output_dir output_file)

/-- `mk_control` of the source: the validated line list joined by
`"\n".join(lines)`. -/
def mk_control (points : List EmissionPoint) (year month day : Int)
    (meteorology_dir : String) (meteorology_files : Option (List (String × String)))
    (start_hour duration_hours : Int) (top_height : ℚ)
    (output_dir output_file : String) (vertical_method : Int) :
    Except GenError String :=
  (mkControlLines points year month day meteorology_dir meteorology_files
    start_hour duration_hours top_height output_dir output_file vertical_method).map
    (pyJoin "\x0a")

/-- Proleptic-Gregorian civil date `(year, month, day)` of a day count
relative to 1970-01-01 (the arithmetic behind Python's `datetime`,
embedded at day granularity; the standard days-to-civil conversion). -/
def civilFromDays (z : Int) : Int × Nat × Nat :=
  let z' := z + 719468
  let era := z'.fdiv 146097
  let doe : Nat := (z' - era * 146097).toNat
  let yoe : Nat := (doe - doe / 1460 + doe / 36524 - doe / 146096) / 365
  let y : Int := (yoe : Int) + era * 400
  let doy : Nat := doe - (365 * yoe + yoe / 4 - yoe / 100)
  let mp : Nat := (5 * doy + 2) / 153
  let d : Nat := doy - (153 * mp + 2) / 5 + 1
  let m : Nat := if mp < 10 then mp + 3 else mp - 9
  (if m ≤ 2 then y + 1 else y, m, d)

/-- The body of the sampling loop of
`generate_meteorology_files_for_period`: the `gdas1` weekly filename for
the civil date of a timestamp (in hours since 1970-01-01T00:00). -/
def fileForTime (t : Int) : String :=
  let c := civilFromDays (t.fdiv 24)
  let year_short := c.1.emod 100
  let month := c.2.1
  let day := c.2.2
  let week_num := min ((day - 1) / 7 + 1) 5
  "gdas1." ++ monthAbbr.getD (month - 1) "" ++ padInt 2 year_short ++
    ".w" ++ toString week_num

/-- The `while current_date <= end_datetime` walk: collect the sampled
timestamps, stepping by `timedelta(days=7)` = 168 hours. -/
def collectWeekly (cur endT : Int) : List Int :=
  if h : cur ≤ endT then cur :: collectWeekly (cur + 168) endT else []
termination_by (endT + 168 - cur).toNat
decreasing_by simp_wf; omega

/-- The de-duplication pass of `generate_meteorology_files_for_period`:
keep a pair when its filename has not been seen yet, in first-seen order. -/
def dedupByFilename : List (String × String) → List String → List (String × String)
  | [], _ => []
  | (path, filename) :: rest, seen =>
    if filename ∈ seen then dedupByFilename rest seen
    else (path, filename) :: dedupByFilename rest (filename :: seen)

/-- `generate_meteorology_files_for_period` of the source, timestamps in
hours since 1970-01-01T00:00: orient the interval (backward for a negative
duration, then swap if still reversed), walk it in 7-day steps mapping
each sampled date to `(base_dir, filename)`, and de-duplicate keyed on
filename. -/
def generate_meteorology_files_for_period (start_datetime : Int)
    (duration_hours : Int) (base_dir : String) : List (String × String) :=
  let endT := if duration_hours < 0 then start_datetime
              else start_datetime + duration_hours
  let startT := if duration_hours < 0 then start_datetime + duration_hours
                else start_datetime
  let startT' := if startT > endT then endT else startT
  let endT' := if startT > endT then startT else endT
  let files_needed := (collectWeekly startT' endT').map (fun t => (base_dir, fileForTime t))
  dedupByFilename files_needed []

/-! ### Helper lemmas -/

/-- A valid date always reaches the line-building part of `mk_control`. -/
theorem mkControlLines_ok (points : List EmissionPoint) (year month day : Int)
    (meteorology_dir : String) (meteorology_files : Option (List (String × String)))
    (start_hour duration_hours : Int) (top_height : ℚ)
    (output_dir output_file : String) (vertical_method : Int)
    (hm : 1 ≤ month ∧ month ≤ 12) (hd : 1 ≤ day ∧ day ≤ 31)
    (hh : 0 ≤ start_hour ∧ start_hour ≤ 23) :
    mkControlLines points year month day meteorology_dir meteorology_files
      start_hour duration_hours top_height output_dir output_file vertical_method =
    .ok (controlHead points year month day meteorology_dir meteorology_files
      start_hour duration_hours top_height vertical_method ++
      fixedTail output_dir output_file) := by
  unfold mkControlLines
  rw [if_neg (not_not_intro hm), if_neg (not_not_intro hd), if_neg (not_not_intro hh)]

theorem pyJoin_cons_cons (sep a b : String) (l : List String) :
    pyJoin sep (a :: b :: l) = a ++ sep ++ pyJoin sep (b :: l) := rfl

/-- Joining a line list whose last line is `"0.0"` produces a string whose
last character is `'0'`; in particular the join is not newline-terminated. -/
theorem pyJoin_getLast_zero (l : List String) :
    (pyJoin "\x0a" (l ++ ["0.0"])).data.getLast? = some '0' := by
  induction l with
  | nil => rfl
  | cons a l ih =>
    rw [List.cons_append]
    cases hl : l ++ ["0.0"] with
    | nil => exact absurd hl (by simp)
    | cons b t =>
      rw [hl] at ih
      rw [pyJoin_cons_cons, String.data_append,
        List.getLast?_append_of_ne_nil]
      · exact ih
      · intro h
        rw [h] at ih
        simp at ih

theorem pairs_flatMap_length (l : List (String × String)) :
    (l.flatMap fun pr => [pr.1, pr.2]).length = 2 * l.length := by
  induction l with
  | nil => rfl
  | cons a l ih => simp only [List.flatMap_cons, List.length_append, List.length_cons,
      List.length_nil, ih]; omega

theorem meteoBlock_length_ge (meteorology_dir : String)
    (meteorology_files : Option (List (String × String))) (year month day : Int) :
    3 ≤ (meteoBlock meteorology_dir meteorology_files year month day).length := by
  match meteorology_files with
  | none => exact le_refl 3
  | some [] => exact le_refl 3
  | some (f :: fs) =>
    simp only [meteoBlock, List.length_cons, pairs_flatMap_length, List.length_cons]
    omega

/-! ### Claim theorems -/

/-- A sample emission point: `{lat: 32.03, lon: 118.46, height: 10,
mass: 100.0, gas: 'Cl', name: '南京'}` of the repository's examples. -/
def samplePoint : EmissionPoint :=
  EmissionPoint.mk (mkRat 3203 100) (mkRat 11846 100) (mkRat 10 1) (mkRat 100 1)
    "Cl" (some "Nanjing") none none

/-- A second sample point: `{lat: 31.23, lon: 121.47, height: 10,
mass: 100.0, gas: 'Cl', name: '上海'}`. -/
def samplePoint2 : EmissionPoint :=
  EmissionPoint.mk (mkRat 3123 100) (mkRat 12147 100) (mkRat 10 1) (mkRat 100 1)
    "Cl" (some "Shanghai") none none

/-- C1: for a non-empty point list and valid date fields, the CONTROL
document carries the species-count line `"1"`, then exactly one pollutant
identifier line (the first point's `gas`) and exactly one released-mass
line (the first point's `mass`), however many points were supplied. -/
theorem claim_C1 (p : EmissionPoint) (ps : List EmissionPoint) (year month day : Int)
    (meteorology_dir : String) (meteorology_files : Option (List (String × String)))
    (start_hour duration_hours : Int) (top_height : ℚ)
    (output_dir output_file : String) (vertical_method : Int)
    (hm : 1 ≤ month ∧ month ≤ 12) (hd : 1 ≤ day ∧ day ≤ 31)
    (hh : 0 ≤ start_hour ∧ start_hour ≤ 23) :
    mkControlLines (p :: ps) year month day meteorology_dir meteorology_files
      start_hour duration_hours top_height output_dir output_file vertical_method =
    .ok (([startTimeStr year month day start_hour,
           toString (p :: ps).length] ++
          (p :: ps).map coordLine ++
          [toString duration_hours,
           toString vertical_method,
           fmtFixed 1 top_height] ++
          meteoBlock meteorology_dir meteorology_files year month day) ++
         ["1", p.gas, pyStr p.mass] ++
         (["3", releaseTimeStr year month day start_hour, "1"] ++
          fixedTail output_dir output_file)) := by
  rw [mkControlLines_ok _ _ _ _ _ _ _ _ _ _ _ _ hm hd hh]
  simp only [controlHead, List.take, List.map_cons, List.map_nil, List.length_cons,
    List.append_assoc, List.cons_append, List.nil_append, Except.ok.injEq]
  rfl

/-- C1 witness: the single-point example instance. -/
theorem claim_C1_witness :
    mkControlLines [samplePoint] 2024 5 2 "D:/WeatherData/" none 0 24 (mkRat 10000 1)
      "./" "cdump" 0 =
    .ok (([startTimeStr 2024 5 2 0, "1"] ++
          [coordLine samplePoint] ++
          ["24", "0", "10000.0"] ++
          meteoBlock "D:/WeatherData/" none 2024 5 2) ++
         ["1", "Cl", "100.0"] ++
         (["3", releaseTimeStr 2024 5 2 0, "1"] ++ fixedTail "./" "cdump")) :=
  claim_C1 samplePoint [] 2024 5 2 "D:/WeatherData/" none 0 24 (mkRat 10000 1)
    "./" "cdump" 0 (by decide) (by decide) (by decide)

/-- C2: `mk_control` signals an `InvalidParameter` error exactly when
month is outside `[1, 12]`, day outside `[1, 31]` or start hour outside
`[0, 23]`; the error names the offending field and its value; the boundary
inputs month=1/day=1/hour=0 and month=12/day=31/hour=23 succeed while
month=0, month=13, day=0, day=32, hour=24 and hour=-1 each fail. -/
theorem claim_C2 :
    (∀ (points : List EmissionPoint) (year month day : Int) (meteorology_dir : String)
       (meteorology_files : Option (List (String × String)))
       (start_hour duration_hours : Int) (top_height : ℚ)
       (output_dir output_file : String) (vertical_method : Int),
      ((∃ e, mk_control points year month day meteorology_dir meteorology_files
          start_hour duration_hours top_height output_dir output_file vertical_method =
          .error e) ↔
        (¬(1 ≤ month ∧ month ≤ 12) ∨ ¬(1 ≤ day ∧ day ≤ 31) ∨
         ¬(0 ≤ start_hour ∧ start_hour ≤ 23))) ∧
      (∀ f v, mk_control points year month day meteorology_dir meteorology_files
          start_hour duration_hours top_height output_dir output_file vertical_method =
          .error (.invalidParameter f v) →
        (f = "month" ∧ v = month) ∨ (f = "day" ∧ v = day) ∨
        (f = "start_hour" ∧ v = start_hour))) ∧
    (∃ s, mk_control [samplePoint] 2024 1 1 "D:/WeatherData/" none 0 24 (mkRat 10000 1)
      "./" "cdump" 0 = .ok s) ∧
    (∃ s, mk_control [samplePoint] 2024 12 31 "D:/WeatherData/" none 23 24 (mkRat 10000 1)
      "./" "cdump" 0 = .ok s) ∧
    mk_control [samplePoint] 2024 0 1 "D:/WeatherData/" none 0 24 (mkRat 10000 1)
      "./" "cdump" 0 = .error (.invalidParameter "month" 0) ∧
    mk_control [samplePoint] 2024 13 1 "D:/WeatherData/" none 0 24 (mkRat 10000 1)
      "./" "cdump" 0 = .error (.invalidParameter "month" 13) ∧
    mk_control [samplePoint] 2024 1 0 "D:/WeatherData/" none 0 24 (mkRat 10000 1)
      "./" "cdump" 0 = .error (.invalidParameter "day" 0) ∧
    mk_control [samplePoint] 2024 1 32 "D:/WeatherData/" none 0 24 (mkRat 10000 1)
      "./" "cdump" 0 = .error (.invalidParameter "day" 32) ∧
    mk_control [samplePoint] 2024 1 1 "D:/WeatherData/" none 24 24 (mkRat 10000 1)
      "./" "cdump" 0 = .error (.invalidParameter "start_hour" 24) ∧
    mk_control [samplePoint] 2024 1 1 "D:/WeatherData/" none (-1) 24 (mkRat 10000 1)
      "./" "cdump" 0 = .error (.invalidParameter "start_hour" (-1)) := by
  refine ⟨?_, ⟨_, rfl⟩, ⟨_, rfl⟩, rfl, rfl, rfl, rfl, rfl, rfl⟩
  intro points year month day meteorology_dir meteorology_files
    start_hour duration_hours top_height output_dir output_file vertical_method
  unfold mk_control mkControlLines
  by_cases h1 : 1 ≤ month ∧ month ≤ 12
  · by_cases h2 : 1 ≤ day ∧ day ≤ 31
    · by_cases h3 : 0 ≤ start_hour ∧ start_hour ≤ 23
      · rw [if_neg (not_not_intro h1), if_neg (not_not_intro h2), if_neg (not_not_intro h3)]
        refine ⟨⟨?_, ?_⟩, ?_⟩
        · rintro ⟨e, he⟩
          exact Except.noConfusion he
        · rintro (h | h | h)
          · exact absurd h1 h
          · exact absurd h2 h
          · exact absurd h3 h
        · intro f v hfv
          exact Except.noConfusion hfv
      · rw [if_neg (not_not_intro h1), if_neg (not_not_intro h2), if_pos h3]
        refine ⟨⟨fun _ => Or.inr (Or.inr h3), fun _ => ⟨_, rfl⟩⟩, ?_⟩
        intro f v hfv
        have h := GenError.invalidParameter.inj (Except.error.inj hfv)
        exact Or.inr (Or.inr ⟨h.1.symm, h.2.symm⟩)
    · rw [if_neg (not_not_intro h1), if_pos h2]
      refine ⟨⟨fun _ => Or.inr (Or.inl h2), fun _ => ⟨_, rfl⟩⟩, ?_⟩
      intro f v hfv
      have h := GenError.invalidParameter.inj (Except.error.inj hfv)
      exact Or.inr (Or.inl ⟨h.1.symm, h.2.symm⟩)
  · rw [if_pos h1]
    refine ⟨⟨fun _ => Or.inl h1, fun _ => ⟨_, rfl⟩⟩, ?_⟩
    intro f v hfv
    have h := GenError.invalidParameter.inj (Except.error.inj hfv)
    exact Or.inl ⟨h.1.symm, h.2.symm⟩

/-- C2 witness: an instance of the characterization, month=13 errors. -/
theorem claim_C2_witness :
    ∃ e, mk_control [samplePoint2] 2023 13 2 "D:/WeatherData/" none 0 24 (mkRat 10000 1)
      "./" "cdump" 0 = .error e :=
  (claim_C2.1 [samplePoint2] 2023 13 2 "D:/WeatherData/" none 0 24 (mkRat 10000 1)
    "./" "cdump" 0).1.mpr (Or.inl (by decide))

/-- C3 counterexample: the block following the release-point-count line
(line index 14 for one point with auto-derived meteorology) has sixteen
lines, not fifteen as claimed. -/
theorem claim_C3_counterexample :
    (mkControlLines [samplePoint] 2024 5 2 "D:/WeatherData/" none 0 24 (mkRat 10000 1)
        "./" "cdump" 0).map (fun L => (L.drop 15).length) = .ok 16 ∧
    ¬ (mkControlLines [samplePoint] 2024 5 2 "D:/WeatherData/" none 0 24 (mkRat 10000 1)
        "./" "cdump" 0).map (fun L => (L.drop 15).length) = .ok 15 := by
  constructor
  · rfl
  · intro h
    exact absurd (Except.ok.inj h) (by decide)

/-- C3 (amended): in every CONTROL document, the release-point-count line
closing the head block is followed by a fixed block of exactly SIXTEEN
further lines, all constant defaults except the output-directory and
output-filename lines, which hold the caller-supplied values verbatim. -/
theorem claim_C3 (points : List EmissionPoint) (year month day : Int)
    (meteorology_dir : String) (meteorology_files : Option (List (String × String)))
    (start_hour duration_hours : Int) (top_height : ℚ)
    (output_dir output_file : String) (vertical_method : Int)
    (hm : 1 ≤ month ∧ month ≤ 12) (hd : 1 ≤ day ∧ day ≤ 31)
    (hh : 0 ≤ start_hour ∧ start_hour ≤ 23) :
    mkControlLines points year month day meteorology_dir meteorology_files
      start_hour duration_hours top_height output_dir output_file vertical_method =
    .ok (controlHead points year month day meteorology_dir meteorology_files
          start_hour duration_hours top_height vertical_method ++
         ["0.0   0.0",
          "0.05 0.05",
          "30 30",
          output_dir,
          output_file,
          "1",
          "100",
          "00 00 00 00 00",
          "00 00 00 00 00",
          "00 01 00",
          "1",
          "0.0 0.0 0.0",
          "0.0 0.0 0.0 0.0 0.0",
          "0.0 0.0 0.0",
          "0.0",
          "0.0"]) ∧
    (controlHead points year month day meteorology_dir meteorology_files
      start_hour duration_hours top_height vertical_method).getLast? =
      some (toString (points.take 1).length) :=
  ⟨mkControlLines_ok points year month day meteorology_dir meteorology_files
      start_hour duration_hours top_height output_dir output_file vertical_method hm hd hh,
   by
    unfold controlHead
    repeat rw [List.getLast?_append_of_ne_nil _ (by simp)]
    rfl⟩

/-- C3 witness: the amended statement at the single-point example. -/
theorem claim_C3_witness :
    (controlHead [samplePoint] 2024 5 2 "D:/WeatherData/" none 0 24 (mkRat 10000 1)
      0).getLast? = some (toString ([samplePoint].take 1).length) :=
  (claim_C3 [samplePoint] 2024 5 2 "D:/WeatherData/" none 0 24 (mkRat 10000 1)
    "./" "cdump" 0 (by decide) (by decide) (by decide)).2

/-- C4: the CONTROL document opens with the start-time line
`YY MM DD HH` (year modulo 100, two-digit zero-padded fields), the decimal
point count, one coordinate line per point in input order
(`LAT.3f LON.3f   HEIGHT.0f`), then the signed duration; and on the
single-point example of the spec the first four lines are `"24 05 02 00"`,
`"1"`, `"32.030 118.460   10"`, `"24"`. -/
theorem claim_C4 :
    (∀ (points : List EmissionPoint) (year month day : Int) (meteorology_dir : String)
       (meteorology_files : Option (List (String × String)))
       (start_hour duration_hours : Int) (top_height : ℚ)
       (output_dir output_file : String) (vertical_method : Int),
      (1 ≤ month ∧ month ≤ 12) → (1 ≤ day ∧ day ≤ 31) →
      (0 ≤ start_hour ∧ start_hour ≤ 23) →
      (mkControlLines points year month day meteorology_dir meteorology_files
          start_hour duration_hours top_height output_dir output_file
          vertical_method).map (fun L => L.take (3 + points.length)) =
        .ok ([padInt 2 (year.emod 100) ++ " " ++ padInt 2 month ++ " " ++
              padInt 2 day ++ " " ++ padInt 2 start_hour,
              toString points.length] ++
             points.map (fun p =>
               fmtFixed 3 p.lat ++ " " ++ fmtFixed 3 p.lon ++ "   " ++
               fmtFixed 0 p.height) ++
             [toString duration_hours])) ∧
    (mkControlLines [samplePoint] 2024 5 2 "D:/WeatherData/" none 0 24 (mkRat 10000 1)
      "./" "cdump" 0).map (fun L => L.take 4) =
      .ok ["24 05 02 00", "1", "32.030 118.460   10", "24"] := by
  constructor
  · intro points year month day meteorology_dir meteorology_files
      start_hour duration_hours top_height output_dir output_file vertical_method hm hd hh
    rw [mkControlLines_ok _ _ _ _ _ _ _ _ _ _ _ _ hm hd hh]
    simp only [Except.map]
    congr 1
    unfold controlHead
    simp only [List.append_assoc, List.cons_append, List.nil_append]
    rw [show 3 + points.length = points.length + 1 + 1 + 1 from by omega,
      List.take_succ_cons, List.take_succ_cons,
      show points.length + 1 = (points.map coordLine).length + 1 from by
        rw [List.length_map],
      List.take_append, show (1 : ℕ) = 0 + 1 from rfl, List.take_succ_cons,
      List.take_zero]
    rfl
  · rfl

/-- C4 witness: the head-structure statement at a one-point instance. -/
theorem claim_C4_witness :
    (mkControlLines [samplePoint2] 2024 6 15 "D:/WeatherData/" none 12 (-12)
      (mkRat 10000 1) "./" "vertical_profile" 0).map
        (fun L => L.take (3 + [samplePoint2].length)) =
    .ok ([padInt 2 ((2024 : Int).emod 100) ++ " " ++ padInt 2 6 ++ " " ++
          padInt 2 15 ++ " " ++ padInt 2 12,
          toString [samplePoint2].length] ++
         [samplePoint2].map (fun p =>
           fmtFixed 3 p.lat ++ " " ++ fmtFixed 3 p.lon ++ "   " ++
           fmtFixed 0 p.height) ++
         [toString (-12 : Int)]) :=
  claim_C4.1 [samplePoint2] 2024 6 15 "D:/WeatherData/" none 12 (-12)
    (mkRat 10000 1) "./" "vertical_profile" 0 (by decide) (by decide) (by decide)

/-- C5: the EMITIMES document is the two fixed header lines, a summary
line whose start hour, duration and record count are zero-padded to four
digits, then exactly one record line per point in input order, each
carrying the point's fields in their native decimal representations with
the duration packed as two-digit hours directly followed by two-digit
minutes. -/
theorem claim_C5 :
    ∀ (points : List EmissionPoint)
      (year month day hour minute duration_hours duration_minutes : Int),
      mk_emitimes points year month day hour minute duration_hours duration_minutes =
        pyJoin "\x0a" (emitimesLines points year month day hour minute
          duration_hours duration_minutes) ∧
      (emitimesLines points year month day hour minute duration_hours
        duration_minutes).length = 3 + points.length ∧
      (emitimesLines points year month day hour minute duration_hours
        duration_minutes).take 3 =
        ["YYYY MM DD HH DURATION(hhhh) RECORDS",
         "YYYY MM DD HH MM DURATION(hhmm) LAT LON HGT(m) RATE(/h) AREA(m2) HEAT(w)",
         toString year ++ " " ++ padInt 2 month ++ " " ++ padInt 2 day ++ " " ++
           padInt 4 hour ++ " " ++ padInt 4 duration_hours ++ " " ++
           padInt 4 (points.length : Int)] ∧
      (emitimesLines points year month day hour minute duration_hours
        duration_minutes).drop 3 =
        points.map (fun p =>
          toString year ++ " " ++ padInt 2 month ++ " " ++ padInt 2 day ++ " " ++
          padInt 2 hour ++ " " ++ padInt 2 minute ++ " " ++
          padInt 2 duration_hours ++ padInt 2 duration_minutes ++ " " ++
          pyStr p.lat ++ " " ++ pyStr p.lon ++ " " ++ pyStr p.height ++ " " ++
          pyStr p.mass ++ " " ++ pyStr (p.area.getD 0) ++ " " ++
          pyStr (p.heat.getD 0)) := by
  intro points year month day hour minute duration_hours duration_minutes
  refine ⟨rfl, ?_, rfl, rfl⟩
  simp only [emitimesLines, emitimesHeaders, List.cons_append, List.nil_append,
    List.length_cons, List.length_map]
  omega

/-- C5 witness: the record count at a two-point instance. -/
theorem claim_C5_witness :
    (emitimesLines [samplePoint, samplePoint2] 2024 5 2 0 0 24 0).length =
      3 + [samplePoint, samplePoint2].length :=
  (claim_C5 [samplePoint, samplePoint2] 2024 5 2 0 0 24 0).2.1

/-- C6: the auto-derived meteorology filename uses week index
`(day - 1) // 7 + 1` clamped to 5 and the pattern
`gdas1.<3-letter-lowercase-month><2-digit-year>.w<week>`; day 1 and day 7
fall in week 1, day 8 in week 2, day 31 in week 5; and for valid inputs
with no caller-supplied meteorology list the CONTROL document carries that
filename right after the count line `"1"` and the directory line. -/
theorem claim_C6 :
    (∀ year month day : Int,
      controlMeteoFile year month day =
        "gdas1." ++ monthAbbr.getD (month - 1).toNat "" ++
        padInt 2 (year.emod 100) ++ ".w" ++
        toString (min ((day - 1).fdiv 7 + 1) 5)) ∧
    controlWeekNum 1 = 1 ∧ controlWeekNum 7 = 1 ∧ controlWeekNum 8 = 2 ∧
    controlWeekNum 31 = 5 ∧
    controlMeteoFile 2024 5 2 = "gdas1.may24.w1" ∧
    (∀ (points : List EmissionPoint) (year month day : Int) (meteorology_dir : String)
       (start_hour duration_hours : Int) (top_height : ℚ)
       (output_dir output_file : String) (vertical_method : Int),
      (1 ≤ month ∧ month ≤ 12) → (1 ≤ day ∧ day ≤ 31) →
      (0 ≤ start_hour ∧ start_hour ≤ 23) →
      (mkControlLines points year month day meteorology_dir none
          start_hour duration_hours top_height output_dir output_file
          vertical_method).map
          (fun L => (L.drop (5 + points.length)).take 3) =
        .ok ["1", meteorology_dir, controlMeteoFile year month day]) := by
  refine ⟨fun _ _ _ => rfl, rfl, rfl, rfl, rfl, rfl, ?_⟩
  intro points year month day meteorology_dir
    start_hour duration_hours top_height output_dir output_file vertical_method hm hd hh
  rw [mkControlLines_ok _ _ _ _ _ _ _ _ _ _ _ _ hm hd hh]
  simp only [Except.map]
  congr 1
  unfold controlHead
  have hgrp :
      ([startTimeStr year month day start_hour, toString points.length] ++
        points.map coordLine ++
        [toString duration_hours, toString vertical_method, fmtFixed 1 top_height] ++
        meteoBlock meteorology_dir none year month day ++
        [toString (points.take 1).length] ++
        (points.take 1).map (fun p => p.gas) ++
        (points.take 1).map (fun p => pyStr p.mass) ++
        ["3", releaseTimeStr year month day start_hour,
         toString (points.take 1).length]) ++
      fixedTail output_dir output_file =
      ([startTimeStr year month day start_hour, toString points.length] ++
        points.map coordLine ++
        [toString duration_hours, toString vertical_method, fmtFixed 1 top_height]) ++
      (meteoBlock meteorology_dir none year month day ++
        ([toString (points.take 1).length] ++
         (points.take 1).map (fun p => p.gas) ++
         (points.take 1).map (fun p => pyStr p.mass) ++
         ["3", releaseTimeStr year month day start_hour,
          toString (points.take 1).length] ++
         fixedTail output_dir output_file)) := by
    simp [List.append_assoc]
  rw [hgrp, List.drop_left' (by simp [List.length_append]; omega)]
  rfl

/-- C6 witness: the linkage instance on the spec's example date. -/
theorem claim_C6_witness :
    (mkControlLines [samplePoint] 2024 5 2 "D:/WeatherData/" none 0 24
      (mkRat 10000 1) "./" "cdump" 0).map
        (fun L => (L.drop (5 + [samplePoint].length)).take 3) =
    .ok ["1", "D:/WeatherData/", controlMeteoFile 2024 5 2] :=
  claim_C6.2.2.2.2.2.2 [samplePoint] 2024 5 2 "D:/WeatherData/" 0 24
    (mkRat 10000 1) "./" "cdump" 0 (by decide) (by decide) (by decide)

/-- De-duplication never invents entries: the result is a sublist of the
input, hence preserves first-seen order. -/
theorem dedupByFilename_sublist (l : List (String × String)) (seen : List String) :
    List.Sublist (dedupByFilename l seen) l := by
  induction l generalizing seen with
  | nil => exact List.Sublist.refl []
  | cons a l ih =>
    obtain ⟨p, f⟩ := a
    by_cases h : f ∈ seen
    · rw [dedupByFilename, if_pos h]
      exact (ih seen).cons (p, f)
    · rw [dedupByFilename, if_neg h]
      exact (ih (f :: seen)).cons₂ (p, f)

/-- Every kept entry has a filename outside the seen set. -/
theorem dedupByFilename_not_seen (l : List (String × String)) (seen : List String) :
    ∀ pr ∈ dedupByFilename l seen, pr.2 ∉ seen := by
  induction l generalizing seen with
  | nil => intro pr hpr; exact absurd hpr (by simp [dedupByFilename])
  | cons a l ih =>
    obtain ⟨p, f⟩ := a
    intro pr hpr
    by_cases h : f ∈ seen
    · rw [dedupByFilename, if_pos h] at hpr
      exact ih seen pr hpr
    · rw [dedupByFilename, if_neg h] at hpr
      rw [List.mem_cons] at hpr
      rcases hpr with rfl | hpr
      · exact h
      · intro hseen
        exact ih (f :: seen) pr hpr (List.mem_cons_of_mem f hseen)

/-- The filenames of the de-duplicated list are pairwise distinct. -/
theorem dedupByFilename_nodup (l : List (String × String)) (seen : List String) :
    ((dedupByFilename l seen).map Prod.snd).Nodup := by
  induction l generalizing seen with
  | nil => exact List.nodup_nil
  | cons a l ih =>
    obtain ⟨p, f⟩ := a
    by_cases h : f ∈ seen
    · rw [dedupByFilename, if_pos h]
      exact ih seen
    · rw [dedupByFilename, if_neg h]
      refine List.nodup_cons.mpr ⟨?_, ih (f :: seen)⟩
      intro hmem
      obtain ⟨pr, hpr, hf⟩ := List.mem_map.mp hmem
      exact dedupByFilename_not_seen l (f :: seen) pr hpr (hf ▸ List.mem_cons_self f seen)

/-- No filename is dropped: every input filename not already seen occurs
among the kept filenames. -/
theorem dedupByFilename_complete (l : List (String × String)) (seen : List String) :
    ∀ pr ∈ l, pr.2 ∉ seen → pr.2 ∈ (dedupByFilename l seen).map Prod.snd := by
  induction l generalizing seen with
  | nil => intro pr hpr; exact absurd hpr (by simp)
  | cons a l ih =>
    obtain ⟨p, f⟩ := a
    intro pr hpr hns
    rw [List.mem_cons] at hpr
    by_cases h : f ∈ seen
    · rw [dedupByFilename, if_pos h]
      rcases hpr with rfl | hpr
      · exact absurd h hns
      · exact ih seen pr hpr hns
    · rw [dedupByFilename, if_neg h]
      rcases hpr with rfl | hpr
      · exact List.mem_map.mpr ⟨(p, f), List.mem_cons_self _ _, rfl⟩
      · by_cases hf : pr.2 = f
        · exact List.mem_map.mpr ⟨(p, f), List.mem_cons_self _ _, hf.symm⟩
        · refine List.mem_cons_of_mem _ ?_
          exact ih (f :: seen) pr hpr (by simp [hf, hns])

/-- C7: the meteorology helper always walks from the earlier interval
bound (backwards duration included) to the later one in 7-day (168-hour)
steps, maps each sampled timestamp to its weekly-bucket pair, and returns
the stable filename-keyed de-duplication of that list; kept filenames are
pairwise distinct, the output is an order-preserving sublist of the walk,
and no filename is dropped.  On the spec's example, start
2024-05-02T00:00 (hour 476280) with duration −72 covers
[2024-04-29T00:00, 2024-05-02T00:00] and yields the single pair
`("D:/WeatherData/", "gdas1.apr24.w5")`. -/
theorem claim_C7 :
    (∀ (start_datetime duration_hours : Int) (base_dir : String),
      generate_meteorology_files_for_period start_datetime duration_hours base_dir =
        dedupByFilename
          ((collectWeekly (min start_datetime (start_datetime + duration_hours))
              (max start_datetime (start_datetime + duration_hours))).map
            (fun t => (base_dir, fileForTime t))) []) ∧
    (∀ (l : List (String × String)),
      List.Sublist (dedupByFilename l []) l ∧
      ((dedupByFilename l []).map Prod.snd).Nodup ∧
      ∀ pr ∈ l, pr.2 ∈ (dedupByFilename l []).map Prod.snd) ∧
    min (476280 : Int) (476280 + (-72)) = 476208 ∧
    civilFromDays ((476280 : Int).fdiv 24) = (2024, 5, 2) ∧
    civilFromDays ((476208 : Int).fdiv 24) = (2024, 4, 29) ∧
    generate_meteorology_files_for_period 476280 (-72) "D:/WeatherData/" =
      [("D:/WeatherData/", "gdas1.apr24.w5")] := by
  have hconc : generate_meteorology_files_for_period 476280 (-72) "D:/WeatherData/" =
      [("D:/WeatherData/", "gdas1.apr24.w5")] := by
    have h : collectWeekly 476208 476280 = [476208] := by
      rw [collectWeekly, dif_pos (by norm_num), collectWeekly, dif_neg (by norm_num)]
    simp only [generate_meteorology_files_for_period]
    norm_num [h]
    rfl
  refine ⟨?_, ?_, by decide, by decide, by decide, hconc⟩
  · intro s dur b
    simp only [generate_meteorology_files_for_period]
    by_cases h : dur < 0
    · rw [if_pos h, if_pos h, if_neg (by omega), if_neg (by omega),
        min_eq_right (by omega), max_eq_left (by omega)]
    · rw [if_neg h, if_neg h, if_neg (by omega), if_neg (by omega),
        min_eq_left (by omega), max_eq_right (by omega)]
  · intro l
    exact ⟨dedupByFilename_sublist l [], dedupByFilename_nodup l [],
      fun pr hpr => dedupByFilename_complete l [] pr hpr (by simp)⟩

/-- C7 witness: the characterization instantiated on the example window. -/
theorem claim_C7_witness :
    generate_meteorology_files_for_period 476280 (-72) "D:/WeatherData/" =
      dedupByFilename
        ((collectWeekly (min (476280 : Int) (476280 + (-72)))
            (max (476280 : Int) (476280 + (-72)))).map
          (fun t => ("D:/WeatherData/", fileForTime t))) [] :=
  claim_C7.1 476280 (-72) "D:/WeatherData/"

set_option maxRecDepth 10000 in
/-- C8 counterexample: the CONTROL text returned by `mk_control` does NOT
end with a newline character — `'\n'.join` inserts separators only, so the
document's last character is the `'0'` of the final `"0.0"` line. -/
theorem claim_C8_counterexample :
    (mk_control [samplePoint] 2024 5 2 "D:/WeatherData/" none 0 24 (mkRat 10000 1)
      "./" "cdump" 0).map (fun s => s.data.getLast?) = .ok (some '0') ∧
    ¬ (mk_control [samplePoint] 2024 5 2 "D:/WeatherData/" none 0 24 (mkRat 10000 1)
      "./" "cdump" 0).map (fun s => s.data.getLast?) = .ok (some '\x0a') := by
  constructor
  · rfl
  · intro h
    exact absurd (Except.ok.inj h) (by decide)

/-- C8 (amended): the CONTROL text consists of at least 25
newline-separated lines but is not newline-terminated: its last character
is the `'0'` of the constant final line `"0.0"`. -/
theorem claim_C8 (points : List EmissionPoint) (year month day : Int)
    (meteorology_dir : String) (meteorology_files : Option (List (String × String)))
    (start_hour duration_hours : Int) (top_height : ℚ)
    (output_dir output_file : String) (vertical_method : Int)
    (hm : 1 ≤ month ∧ month ≤ 12) (hd : 1 ≤ day ∧ day ≤ 31)
    (hh : 0 ≤ start_hour ∧ start_hour ≤ 23) :
    ∃ L, mkControlLines points year month day meteorology_dir meteorology_files
        start_hour duration_hours top_height output_dir output_file vertical_method =
        .ok L ∧
      25 ≤ L.length ∧
      mk_control points year month day meteorology_dir meteorology_files
        start_hour duration_hours top_height output_dir output_file vertical_method =
        .ok (pyJoin "\x0a" L) ∧
      (pyJoin "\x0a" L).data.getLast? = some '0' := by
  refine ⟨_, mkControlLines_ok points year month day meteorology_dir meteorology_files
    start_hour duration_hours top_height output_dir output_file vertical_method hm hd hh,
    ?_, ?_, ?_⟩
  · have hmb := meteoBlock_length_ge meteorology_dir meteorology_files year month day
    simp only [controlHead, fixedTail, List.length_append, List.length_cons,
      List.length_nil, List.length_map]
    omega
  · unfold mk_control
    rw [mkControlLines_ok points year month day meteorology_dir meteorology_files
      start_hour duration_hours top_height output_dir output_file vertical_method hm hd hh]
    rfl
  · have hsplit : fixedTail output_dir output_file =
        ["0.0   0.0", "0.05 0.05", "30 30", output_dir, output_file, "1", "100",
         "00 00 00 00 00", "00 00 00 00 00", "00 01 00", "1", "0.0 0.0 0.0",
         "0.0 0.0 0.0 0.0 0.0", "0.0 0.0 0.0", "0.0"] ++ ["0.0"] := rfl
    rw [hsplit, ← List.append_assoc]
    exact pyJoin_getLast_zero _

/-- C8 witness: the amended statement at the example instance. -/
theorem claim_C8_witness :
    ∃ L, mkControlLines [samplePoint2] 2024 5 2 "D:/WeatherData/" none 0 24
        (mkRat 10000 1) "./" "cdump" 0 = .ok L ∧
      25 ≤ L.length ∧
      mk_control [samplePoint2] 2024 5 2 "D:/WeatherData/" none 0 24
        (mkRat 10000 1) "./" "cdump" 0 = .ok (pyJoin "\x0a" L) ∧
      (pyJoin "\x0a" L).data.getLast? = some '0' :=
  claim_C8 [samplePoint2] 2024 5 2 "D:/WeatherData/" none 0 24 (mkRat 10000 1)
    "./" "cdump" 0 (by decide) (by decide) (by decide)

/-- C9: an explicitly empty meteorology file list is falsy in Python, so
`mk_control` takes the same auto-derivation branch as when no list is
passed: the whole document coincides with the `None` case, and the
meteorology block is `["1", dir, derived-file]`, whose count line is `"1"`
(never `"0"`). -/
theorem claim_C9 :
    ∀ (points : List EmissionPoint) (year month day : Int) (meteorology_dir : String)
      (start_hour duration_hours : Int) (top_height : ℚ)
      (output_dir output_file : String) (vertical_method : Int),
      mk_control points year month day meteorology_dir (some []) start_hour
        duration_hours top_height output_dir output_file vertical_method =
        mk_control points year month day meteorology_dir none start_hour
          duration_hours top_height output_dir output_file vertical_method ∧
      meteoBlock meteorology_dir (some []) year month day =
        ["1", meteorology_dir, controlMeteoFile year month day] ∧
      (meteoBlock meteorology_dir (some []) year month day).head? = some "1" :=
  fun _ _ _ _ _ _ _ _ _ _ _ => ⟨rfl, rfl, rfl⟩

/-- C9 witness: the empty-list call equals the `None` call on the example. -/
theorem claim_C9_witness :
    mk_control [samplePoint] 2024 5 2 "D:/WeatherData/" (some []) 0 24
      (mkRat 10000 1) "./" "cdump" 0 =
    mk_control [samplePoint] 2024 5 2 "D:/WeatherData/" none 0 24
      (mkRat 10000 1) "./" "cdump" 0 :=
  (claim_C9 [samplePoint] 2024 5 2 "D:/WeatherData/" 0 24 (mkRat 10000 1)
    "./" "cdump" 0).1

/-- C10: `mk_emitimes` performs no range validation: for every integer
year, month, day, hour, minute and durations — out-of-range values
included — it is a total function returning the complete document of
`3 + len(points)` lines (the embedded source has no error path at all),
whereas `mk_control` rejects month=13, day=32 and hour=24. -/
theorem claim_C10 :
    (∀ (points : List EmissionPoint)
       (year month day hour minute duration_hours duration_minutes : Int),
      mk_emitimes points year month day hour minute duration_hours duration_minutes =
        pyJoin "\x0a" (emitimesLines points year month day hour minute
          duration_hours duration_minutes) ∧
      (emitimesLines points year month day hour minute duration_hours
        duration_minutes).length = 3 + points.length) ∧
    (emitimesLines [samplePoint] 2024 13 32 24 (-1) 24 0).length = 4 ∧
    (∃ e, mk_control [samplePoint] 2024 13 2 "D:/WeatherData/" none 0 24
      (mkRat 10000 1) "./" "cdump" 0 = .error e) ∧
    (∃ e, mk_control [samplePoint] 2024 5 32 "D:/WeatherData/" none 0 24
      (mkRat 10000 1) "./" "cdump" 0 = .error e) ∧
    (∃ e, mk_control [samplePoint] 2024 5 2 "D:/WeatherData/" none 24 24
      (mkRat 10000 1) "./" "cdump" 0 = .error e) := by
  refine ⟨?_, rfl, ⟨_, rfl⟩, ⟨_, rfl⟩, ⟨_, rfl⟩⟩
  intro points year month day hour minute duration_hours duration_minutes
  refine ⟨rfl, ?_⟩
  simp only [emitimesLines, emitimesHeaders, List.cons_append, List.nil_append,
    List.length_cons, List.length_map]
  omega

/-- C10 witness: an out-of-range instance still yields a full document. -/
theorem claim_C10_witness :
    (emitimesLines [samplePoint2] 2024 13 32 24 0 24 0).length =
      3 + [samplePoint2].length :=
  (claim_C10.1 [samplePoint2] 2024 13 32 24 0 24 0).2

end Hysplit
